import Mathlib

/-!
Verification development for the sazka_bonus_calendar_notifier repository.

The Python sources src/sazka.py, src/pushover.py are shallowly embedded
below.  Pure computations become Lean functions; the network transport is
abstracted by passing in its outcome (the response, or the kind of failure)
as an explicit argument, exactly mirroring the branches the Python code
takes on that outcome.  Python exceptions become Except values; an
uncaught Python runtime exception (AttributeError, IndexError) that escapes
a function is modelled as a dedicated error constructor so that it can be
distinguished from the error types of the library itself.
-/

/-- Model of a (naive) Python datetime value: year, month, day and the time
of day fields.  ISO-8601 decoding done by datetime.fromisoformat is treated
as the transport that delivers such a value. -/
structure Datetime where
  year : Int
  month : Nat
  day : Nat
  hour : Nat
  minute : Nat
  second : Nat
  microsecond : Nat
deriving DecidableEq, Repr

/-- Model of datetime.replace with the keyword arguments hour, minute,
second, microsecond as used at src/sazka.py line 142: the date part is kept
and the four time fields are overwritten. -/
def Datetime.replace (dt : Datetime) (hour minute second microsecond : Nat) : Datetime :=
  { dt with hour := hour, minute := minute, second := second, microsecond := microsecond }

/-- Lexicographic comparison of naive datetimes, as Python compares
datetime values field by field. -/
def dtLe (a b : Datetime) : Bool :=
  if a.year < b.year then true else if b.year < a.year then false
  else if a.month < b.month then true else if b.month < a.month then false
  else if a.day < b.day then true else if b.day < a.day then false
  else if a.hour < b.hour then true else if b.hour < a.hour then false
  else if a.minute < b.minute then true else if b.minute < a.minute then false
  else if a.second < b.second then true else if b.second < a.second then false
  else if a.microsecond < b.microsecond then true else false

/-- Smaller of two datetimes under dtLe. -/
def dtMin (a b : Datetime) : Datetime := if dtLe a b then a else b

/-- Larger of two datetimes under dtLe. -/
def dtMax (a b : Datetime) : Datetime := if dtLe a b then b else a

/-- Minimum of a list of datetimes (none for the empty list).  This is a
definition written after the words of the spec, used to compare the spec
claim about Calendar bounds with what the source computes. -/
def dtListMin : List Datetime → Option Datetime
  | [] => none
  | d :: rest => some (rest.foldl dtMin d)

/-- Maximum of a list of datetimes (none for the empty list); spec-side
definition, counterpart of dtListMin. -/
def dtListMax : List Datetime → Option Datetime
  | [] => none
  | d :: rest => some (rest.foldl dtMax d)

/-! ## Text normalization (src/sazka.py, _fix_text, lines 106-108)

Python strings are modelled as lists of characters, with a String wrapper
for the call sites.  The three steps of _fix_text are embedded one by one:
text.replace of newline by space, str.strip of surrounding whitespace, and
re.sub of runs of spaces by a single space. -/

/-- Characters stripped by Python str.strip with no argument (the ASCII
whitespace characters recognised by str.isspace). -/
def pyIsSpace (c : Char) : Bool :=
  c = ' ' || c = '\t' || c = '\n' || c = '\r' || c = Char.ofNat 11 || c = Char.ofNat 12

/-- Embedding of text.replace of a newline by a single space. -/
def replaceNewlines (l : List Char) : List Char :=
  l.map (fun c => if c = '\n' then ' ' else c)

/-- Embedding of Python str.strip: drop whitespace from both ends. -/
def pyStrip (l : List Char) : List Char :=
  ((l.dropWhile pyIsSpace).reverse.dropWhile pyIsSpace).reverse

/-- Worker for the embedding of re.sub collapsing runs of spaces: the flag
records whether the previous emitted character position was inside a run of
spaces, so every maximal run of spaces is emitted as a single space. -/
def collapseSpacesAux : Bool → List Char → List Char
  | _, [] => []
  | prev, c :: rest =>
    if c = ' ' then
      if prev then collapseSpacesAux true rest
      else ' ' :: collapseSpacesAux true rest
    else c :: collapseSpacesAux false rest

/-- Embedding of re.sub replacing every run of spaces by one space. -/
def collapseSpaces (l : List Char) : List Char := collapseSpacesAux false l

/-- Embedding of SazkaClient._fix_text: replace newlines by spaces, strip
surrounding whitespace, collapse runs of spaces. -/
def fixText (l : List Char) : List Char :=
  collapseSpaces (pyStrip (replaceNewlines l))

/-- String-typed wrapper of fixText, matching the str to str signature of
_fix_text. -/
def fixTextS (s : String) : String := String.mk (fixText s.data)

/-! ## Sazka data model (src/sazka.py, lines 31-57) -/

/-- CalendarBonusButton from src/sazka.py: all four fields optional. -/
structure CalendarBonusButton where
  type : Option String
  text : Option String
  link : Option String
  bonus : Option String
deriving DecidableEq, Repr

/-- CalendarBonus from src/sazka.py, field for field. -/
structure CalendarBonus where
  id : Int
  title : String
  text : String
  image_url : String
  left_button : Option CalendarBonusButton
  right_button : Option CalendarBonusButton
  start_datetime : Datetime
  end_datetime : Datetime
  state : Int
deriving DecidableEq, Repr

/-- Calendar from src/sazka.py, field for field. -/
structure Calendar where
  title : String
  subtitle : String
  text : String
  url : String
  bonuses : List CalendarBonus
  start_datetime : Datetime
  end_datetime : Datetime
deriving DecidableEq, Repr

/-- One element of the embedded JSON bonus list found in the data attribute
of the bonuses-grid element (spec section 6): id, image, state and the
endDateTime, the last already decoded from its ISO-8601 string. -/
structure BonusEntry where
  id : Int
  image : String
  state : Int
  endDateTime : Datetime
deriving DecidableEq, Repr

/-- One record of the bonus popup JSON feed (spec section 6): the button
fields may be absent or null, title and text are the detail strings. -/
structure PopupRecord where
  id : Int
  leftButtonType : Option String
  leftButtonText : Option String
  leftButtonLink : Option String
  leftButtonBonus : Option String
  rightButtonType : Option String
  rightButtonText : Option String
  rightButtonLink : Option String
  rightButtonBonus : Option String
  title : String
  text : String
deriving DecidableEq, Repr

/-- Failure modes of the scraper client.  dataError, authError and
connectionError embed the DataError, AuthError and ConnectionError classes
of src/sazka.py; attributeError and indexError model the uncaught Python
AttributeError and IndexError the code can also raise at runtime, and
validationError models the uncaught pydantic ValidationError raised when a
model whose fields are required is constructed without them. -/
inductive SazkaFailure where
  | connectionError
  | authError (content : String)
  | dataError (msg : String)
  | attributeError
  | indexError
  | validationError
deriving DecidableEq, Repr

/-- Python truthiness of an optional string, as used by the tests
bonus_popup.get of the button type fields: None and the empty string are
falsy, every other string is truthy. -/
def truthyStr : Option String → Bool
  | none => false
  | some s => !s.isEmpty

/-- Python truthiness of a parsed embedded bonus entry, as tested at
src/sazka.py line 120.  The entries iterated there are JSON objects that
carry at least an id key, hence non-empty dicts, hence always truthy. -/
def BonusEntry.truthy (_ : BonusEntry) : Bool := true

/-- Body of the per-entry loop of _get_calendar_bonuses, lines 123-154:
build the optional buttons from the popup record, derive start_datetime
from end_datetime by replacing the time of day with noon, and assemble the
CalendarBonus. -/
def buildBonus (bd : BonusEntry) (bp : PopupRecord) : CalendarBonus :=
  let leftButton : Option CalendarBonusButton :=
    if truthyStr bp.leftButtonType then
      some ⟨bp.leftButtonType, bp.leftButtonText, bp.leftButtonLink, bp.leftButtonBonus⟩
    else none
  let rightButton : Option CalendarBonusButton :=
    if truthyStr bp.rightButtonType then
      some ⟨bp.rightButtonType, bp.rightButtonText, bp.rightButtonLink, bp.rightButtonBonus⟩
    else none
  let endDt := bd.endDateTime
  let startDt := endDt.replace 12 0 0 0
  { id := bd.id, title := bp.title, text := bp.text, image_url := bd.image,
    left_button := leftButton, right_button := rightButton,
    start_datetime := startDt, end_datetime := endDt, state := bd.state }

/-- Embedding of _get_calendar_bonuses (src/sazka.py lines 110-158) after
the two JSON decodes: iterate over the embedded bonus entries, look the id
up in the popup feed with next over a filtered iterator, run the guard of
line 120 (which tests bonus_data, not the lookup result), then dereference
the lookup result.  A None lookup result therefore surfaces as the Python
AttributeError raised by bonus_popup.get, not as DataError. -/
def getCalendarBonuses : List BonusEntry → List PopupRecord →
    Except SazkaFailure (List CalendarBonus)
  | [], _ => .ok []
  | bd :: rest, popupData =>
    let bonusPopup := popupData.find? (fun x => x.id == bd.id)
    if bd.truthy = false then
      .error (.dataError "Could not fidn a matching bonus popup.")
    else
      match bonusPopup with
      | none => .error .attributeError
      | some bp =>
        match getCalendarBonuses rest popupData with
        | .error e => .error e
        | .ok bs => .ok (buildBonus bd bp :: bs)

/-- The assignments of lines 162-169 of _get_calendar embedded as written.
In the source these lines are unreachable, because the Calendar()
construction at line 161 raises first (see getCalendar below); they are
embedded separately to record what the field computations of the function
body state.  The text arguments are the strings the page parse delivers
(the header divs, the subtitle and the descriptive text); url is the value
get_calendars assigns at line 180.  The indexing bonuses[0] and
bonuses[-1] of lines 167-168 would be an uncaught IndexError on an empty
bonus list, modelled by the indexError constructor. -/
def getCalendarFields (headerDivTexts : List String) (subtitle text url : String)
    (bonusesData : List BonusEntry) (popupData : List PopupRecord) :
    Except SazkaFailure Calendar :=
  match getCalendarBonuses bonusesData popupData with
  | .error e => .error e
  | .ok bonuses =>
    match bonuses.head?, bonuses.getLast? with
    | some b0, some bl =>
      .ok { title := " ".intercalate (headerDivTexts.map fixTextS),
            subtitle := fixTextS subtitle, text := fixTextS text, url := url,
            bonuses := bonuses,
            start_datetime := b0.start_datetime, end_datetime := bl.end_datetime }
    | _, _ => .error .indexError

/-- Embedding of _get_calendar (src/sazka.py lines 160-169).  Its first
statement, calendar = Calendar() at line 161, constructs a pydantic model
whose seven fields (title, subtitle, text, url, bonuses, start_datetime,
end_datetime) are all required with no defaults; pydantic validates at
construction, so this raises ValidationError unconditionally and none of
lines 162-169 ever runs: _get_calendar returns no Calendar for any
input. -/
def getCalendar (_headerDivTexts : List String) (_subtitle _text _url : String)
    (_bonusesData : List BonusEntry) (_popupData : List PopupRecord) :
    Except SazkaFailure Calendar :=
  .error .validationError

/-! ## Login (src/sazka.py, _login, lines 64-84) -/

/-- Parsed JSON body of a successful login response: the two keys the code
reads, each possibly absent. -/
structure LoginBody where
  playerId : Option String
  sessionToken : Option String
deriving DecidableEq, Repr

/-- Outcome of the login POST as the code observes it: a 2xx response with
a parsed body, a RequestException whose attached response has the given
status and content (what raise_for_status raises for non-2xx), or a
RequestException with no response attached, which is what a genuine
transport failure such as a refused connection produces. -/
inductive LoginOutcome where
  | success (body : LoginBody)
  | httpError (status : Nat) (content : String)
  | transportError
deriving DecidableEq, Repr

/-- Embedding of _login.  On success the code keeps the session pair when
the body has at least one of the two expected keys, else raises DataError.
In the except branch it first reads e.response.status_code: when the
exception carries a response this selects AuthError for 4xx and
ConnectionError otherwise, but when the exception has no response the
attribute access on None raises AttributeError before the ConnectionError
raise of line 84 is ever reached. -/
def loginHandle : LoginOutcome → Except SazkaFailure (Option String × Option String)
  | .success body =>
    if body.playerId.isSome || body.sessionToken.isSome then
      .ok (body.playerId, body.sessionToken)
    else
      .error (.dataError "The login API response did not include expected values")
  | .httpError status content =>
    if 400 ≤ status && status < 500 then .error (.authError content)
    else .error .connectionError
  | .transportError => .error .attributeError

/-! ## Pushover notifier model (src/pushover.py) -/

/-- Failure modes of the notifier client: the ConnectionError, AuthError
and ApiError classes of src/pushover.py, plus validationError for the
pydantic ValidationError raised when a field constraint of a model is
violated. -/
inductive NotifierErr where
  | connectionError
  | authError (msg : String)
  | apiError (msg : String)
  | validationError
deriving DecidableEq, Repr

/-- The closed set of sound names of Message.MessageSound. -/
def soundNames : List String :=
  ["pushover", "bike", "bugle", "cashregister", "classical", "cosmic",
   "falling", "gamelan", "incoming", "intermission", "magic", "mechanical",
   "pianobar", "siren", "spacealarm", "tugboat", "alien", "climb",
   "persistent", "echo", "updown", "vibrate", "none"]

/-- The Message model of src/pushover.py, field for field and in source
order.  SecretStr values are modelled by their underlying strings, bytes by
a list of byte values, and the MessageSound enum by its string value. -/
structure Message where
  token : Option String
  user : Option String
  message : String
  attachment : Option (List Nat)
  attachment_base64 : Option String
  attachment_type : Option String
  device : Option String
  html : Bool
  monospace : Bool
  priority : Int
  sound : String
  timestamp : Option Int
  title : Option String
  ttl : Option Int
  url : Option String
  url_title : Option String
deriving DecidableEq, Repr

/-- Characters allowed in a MIME token by the attachment_type pattern of
src/pushover.py line 83: letters, digits and the fifteen listed symbol
characters, given here by code point. -/
def isTchar (c : Char) : Bool :=
  c.isAlphanum ||
    ([33, 35, 36, 37, 38, 39, 42, 43, 45, 46, 94, 95, 96, 124, 126].contains c.toNat)

/-- The ten literal top-level type names of the attachment_type pattern. -/
def mimeTypeNames : List (List Char) :=
  ["application", "audio", "font", "example", "image", "message", "model",
   "multipart", "text", "video"].map String.data

/-- Match a literal against the front of a character list, returning the
remainder on success. -/
def dropLit : List Char → List Char → Option (List Char)
  | [], l => some l
  | _, [] => none
  | p :: ps, c :: cs => if p = c then dropLit ps cs else none

/-- Match of the attachment_type regular expression anchored at the head of
the list.  Because the parameter group of the pattern is starred it can
always match the empty string, and the engine searches rather than anchors,
so a match exists exactly when a type alternative is followed by a slash
and at least one token character. -/
def mimeMatchAt (l : List Char) : Bool :=
  (mimeTypeNames.any (fun t =>
    match dropLit t l with
    | some ('/' :: c :: _) => isTchar c
    | _ => false)) ||
  (match l with
   | 'x' :: '-' :: rest =>
     (match rest.dropWhile isTchar with
      | '/' :: c :: _ => !(rest.takeWhile isTchar).isEmpty && isTchar c
      | _ => false)
   | _ => false)

/-- Unanchored search of the attachment_type pattern, as the pattern
constraint of the field performs. -/
def mimeSearch : List Char → Bool
  | [] => false
  | c :: rest => mimeMatchAt (c :: rest) || mimeSearch rest

/-- Whether a string satisfies the attachment_type pattern constraint. -/
def mimeOk (s : String) : Bool := mimeSearch s.data

/-- Conjunction of the per-field constraints pydantic checks when a Message
is constructed: 30-character token and user when present, the length caps
on message and title, the attachment_type pattern, the priority literal
set, the closed sound set, the non-negative timestamp and the positive
ttl. -/
def fieldChecksOk (m : Message) : Bool :=
  (match m.token with | none => true | some s => decide (s.length = 30)) &&
  (match m.user with | none => true | some s => decide (s.length = 30)) &&
  decide (m.message.length ≤ 1024) &&
  (match m.attachment_type with | none => true | some s => mimeOk s) &&
  (m.priority == -2 || m.priority == -1 || m.priority == 0 ||
    m.priority == 1 || m.priority == 2) &&
  soundNames.contains m.sound &&
  (match m.timestamp with | none => true | some t => decide (0 ≤ t)) &&
  (match m.title with | none => true | some s => decide (s.length ≤ 250)) &&
  (match m.ttl with | none => true | some t => decide (0 < t))

/-- Embedding of constructing a Message: the per-field constraints run
first (pydantic validates fields before model validators); when they pass,
the check_html_and_monospace model validator of lines 134-138 rejects the
value when both formatting flags are true. -/
def validateMessage (m : Message) : Except String Message :=
  if fieldChecksOk m = false then .error "validation error"
  else if m.html && m.monospace then
    .error "Parameters HTML and monospace cannot be both set to true"
  else .ok m

/-- Whether an Except value is a success. -/
def isOkB {ε α : Type} : Except ε α → Bool
  | .ok _ => true
  | .error _ => false

/-- The form-encoded payload produced by message.model_dump at line 203:
every field as held by the model, except that the two serializers of lines
140-146 turn the html and monospace booleans into 1 or 0. -/
structure Payload where
  token : Option String
  user : Option String
  message : String
  attachment : Option (List Nat)
  attachment_base64 : Option String
  attachment_type : Option String
  device : Option String
  html : Nat
  monospace : Nat
  priority : Int
  sound : String
  timestamp : Option Int
  title : Option String
  ttl : Option Int
  url : Option String
  url_title : Option String
deriving DecidableEq, Repr

/-- Embedding of message.model_dump with the two boolean serializers. -/
def Message.modelDump (m : Message) : Payload :=
  ⟨m.token, m.user, m.message, m.attachment, m.attachment_base64,
   m.attachment_type, m.device, if m.html then 1 else 0,
   if m.monospace then 1 else 0, m.priority, m.sound, m.timestamp, m.title,
   m.ttl, m.url, m.url_title⟩

/-- Parsed JSON body of a provider response: the status flag (absent keys
default to 0 at the read site) and the list of error strings. -/
structure RespBody where
  status : Option Int
  errors : List String
deriving DecidableEq, Repr

/-- Embedding of Python str.capitalize, applied to the error message at
src/pushover.py line 174: the first character is uppercased and every
remaining character is lowercased. -/
def pyCapitalize (s : String) : String :=
  match s.data with
  | [] => s
  | c :: rest => String.mk (c.toUpper :: rest.map Char.toLower)

/-- Spec-side reading of capitalization used by the claim under review:
only the first letter is capitalized and the remaining characters are kept
unchanged.  Compared against pyCapitalize, the function the source runs. -/
def capitalizeFirstLetterSpec (s : String) : String :=
  match s.data with
  | [] => s
  | c :: rest => String.mk (c.toUpper :: rest)

/-- Embedding of _validate_response (lines 168-174): when the status flag
of the body defaults to or equals 0, the ApiError message is the first
error string (or the fallback text) passed through str.capitalize; the
result is the raised message, none when no error is raised. -/
def validateResponse (body : RespBody) : Option String :=
  if body.status.getD 0 = 0 then
    some (pyCapitalize (body.errors.headD "Failed to get the error message"))
  else none

/-- Outcome of a provider POST: a response with an HTTP status and parsed
body, or a transport failure raising a RequestException. -/
inductive PostOutcome where
  | ok (status : Nat) (body : RespBody)
  | transportError
deriving DecidableEq, Repr

/-- Response handling of _validate_secrets (lines 183-190): a transport
failure becomes ConnectionError; an ApiError from _validate_response is
re-raised as AuthError with the same message; otherwise raise_for_status
turns a non-2xx status into a RequestException, hence ConnectionError. -/
def validateSecretsHandle : PostOutcome → Except NotifierErr Unit
  | .transportError => .error .connectionError
  | .ok status body =>
    match validateResponse body with
    | some msg => .error (.authError msg)
    | none => if 400 ≤ status then .error .connectionError else .ok ()

/-- Embedding of _validate_secrets including the Validate model of lines
177-181, whose pydantic constraints require exactly 30 characters for the
token and the user key before the request is even made. -/
def validateSecrets (apiToken userKey : String) (outcome : PostOutcome) :
    Except NotifierErr Unit :=
  if apiToken.length = 30 ∧ userKey.length = 30 then
    validateSecretsHandle outcome
  else .error .validationError

/-! ## Limits extraction (src/pushover.py, lines 149-159 and 192-196) -/

/-- The three rate-limit response headers, each possibly absent. -/
structure LimitHeaders where
  limit : Option String
  remaining : Option String
  reset : Option String
deriving DecidableEq, Repr

/-- Digits of a decimal numeral to its value; none when the list is empty
or contains a non-digit. -/
def digitsToNat? (l : List Char) : Option Nat :=
  if l.isEmpty then none
  else if l.all Char.isDigit then
    some (l.foldl (fun a c => a * 10 + (c.toNat - 48)) 0)
  else none

/-- Conversion of a decimal string to an integer, as both the pydantic
coercion of the int fields and the int call of the reset validator perform:
an optional sign followed by digits. -/
def pyStrToInt? (s : String) : Option Int :=
  match s.data with
  | [] => none
  | c :: rest =>
    if c = '-' then (digitsToNat? rest).map (fun n => -(n : Int))
    else if c = '+' then (digitsToNat? rest).map (fun n => (n : Int))
    else (digitsToNat? (c :: rest)).map (fun n => (n : Int))

/-- Civil date from a count of days since 1970-01-01, by the standard
era-based conversion; floor division makes the era computation uniform for
dates before the epoch. -/
def civilFromDays (z : Int) : Int × Nat × Nat :=
  let zz := z + 719468
  let era := zz.ediv 146097
  let doe := (zz - era * 146097).toNat
  let yoe := (doe - doe / 1460 + doe / 36524 - doe / 146096) / 365
  let doy := doe - (365 * yoe + yoe / 4 - yoe / 100)
  let mp := (5 * doy + 2) / 153
  let d := doy - (153 * mp + 2) / 5 + 1
  let m := if mp < 10 then mp + 3 else mp - 9
  let y := (yoe : Int) + era * 400 + (if m ≤ 2 then 1 else 0)
  (y, m, d)

/-- Embedding of datetime.fromtimestamp as used by the reset validator at
line 159: seconds since the Unix epoch to a datetime.  The source uses the
local timezone of the process; the model fixes the UTC civil calendar,
matching the UTC-equivalent reading of the spec scenario. -/
def Datetime.fromTimestamp (t : Int) : Datetime :=
  let days := t.ediv 86400
  let secs := (t.emod 86400).toNat
  let c := civilFromDays days
  { year := c.1, month := c.2.1, day := c.2.2,
    hour := secs / 3600, minute := secs % 3600 / 60, second := secs % 60,
    microsecond := 0 }

/-- The Limits model of lines 149-159: two integer quotas and the reset
datetime produced by the parse_reset validator. -/
structure Limits where
  limit : Int
  remaining : Int
  reset : Datetime
deriving DecidableEq, Repr

/-- Value a rate-limit header contributes: the header string when present,
the integer 0 when absent; pydantic then coerces the string to an integer,
and a non-numeric string is a ValidationError. -/
def headerInt? : Option String → Option Int
  | none => some 0
  | some s => pyStrToInt? s

/-- Embedding of _extract_limits (lines 192-196): read the three headers
with default 0 and build Limits, the reset value going through
datetime.fromtimestamp. -/
def extractLimits (h : LimitHeaders) : Except NotifierErr Limits :=
  match headerInt? h.limit, headerInt? h.remaining, headerInt? h.reset with
  | some l, some r, some t => .ok ⟨l, r, Datetime.fromTimestamp t⟩
  | _, _, _ => .error .validationError

/-! ## send_message (src/pushover.py, lines 198-209) -/

/-- Outcome of the message POST: a response with HTTP status, parsed JSON
body and the rate-limit headers, or a transport failure. -/
inductive SendOutcome where
  | ok (status : Nat) (body : RespBody) (headers : LimitHeaders)
  | transportError
deriving DecidableEq, Repr

/-- The in-place mutation of lines 199-200: the held credentials overwrite
the token and user fields of the caller message before the dump. -/
def updateForSend (apiToken userKey : String) (m : Message) : Message :=
  { m with token := some apiToken, user := some userKey }

/-- The payload posted to the messages endpoint at line 203: the dump of
the mutated message. -/
def sendPayload (apiToken userKey : String) (m : Message) : Payload :=
  (updateForSend apiToken userKey m).modelDump

/-- Embedding of send_message: returns the caller message as it stands
after the call (the mutation of lines 199-200 happens before any request)
together with the result.  A transport failure is ConnectionError; an
ApiError from _validate_response propagates unwrapped; a non-2xx status
hits raise_for_status and becomes ConnectionError; on success the limits
are extracted from the headers. -/
def sendMessageHandle (apiToken userKey : String) (m : Message)
    (outcome : SendOutcome) : Message × Except NotifierErr Limits :=
  let m2 := updateForSend apiToken userKey m
  (m2,
    match outcome with
    | .transportError => .error .connectionError
    | .ok status body headers =>
      match validateResponse body with
      | some msg => .error (.apiError msg)
      | none => if 400 ≤ status then .error .connectionError else extractLimits headers)

/-! ## Spec-side definitions and concrete example inputs -/

/-- The property the spec states for Calendar bounds: start_datetime is the
minimum of the bonus start datetimes and end_datetime the maximum of the
bonus end datetimes.  Written after the words of the spec, to be compared
with what getCalendar computes. -/
def calendarMinMaxBool (cal : Calendar) : Bool :=
  (dtListMin (cal.bonuses.map (fun b => b.start_datetime)) == some cal.start_datetime) &&
  (dtListMax (cal.bonuses.map (fun b => b.end_datetime)) == some cal.end_datetime)

/-- Example embedded bonus entry, from the end-to-end scenario of the
spec. -/
def entryEx : BonusEntry := ⟨5, "i.png", 1, ⟨2024, 6, 1, 0, 0, 0, 0⟩⟩

/-- Example popup record matching entryEx, with no buttons. -/
def popupEx : PopupRecord :=
  ⟨5, none, none, none, none, none, none, none, none, "Win!", "Prize"⟩

/-- The CalendarBonus that extraction builds from entryEx and popupEx. -/
def bonusEx : CalendarBonus := buildBonus entryEx popupEx

/-- Two embedded bonus entries whose end datetimes are in descending
order, so the first start is not the minimum and the last end is not the
maximum. -/
def bdCex : List BonusEntry :=
  [⟨5, "i", 1, ⟨2024, 6, 2, 0, 0, 0, 0⟩⟩, ⟨6, "j", 1, ⟨2024, 6, 1, 0, 0, 0, 0⟩⟩]

/-- Popup records matching both entries of bdCex. -/
def pdCex : List PopupRecord :=
  [⟨5, none, none, none, none, none, none, none, none, "A", "B"⟩,
   ⟨6, none, none, none, none, none, none, none, none, "C", "D"⟩]

/-- A 30-character credential string. -/
def tok30 : String := "aaaaaaaaaaaaaaaaaaaaaaaaaaaaaa"

/-- A Message value with both formatting flags set and every other field
at its default. -/
def msgBoth : Message :=
  ⟨none, none, "", none, none, none, none, true, true, 0, "pushover",
   none, none, none, none, none⟩

/-- Whether a character list contains no two adjacent spaces; the shape
re.sub of runs of spaces leaves behind. -/
def noDoubleSpace : List Char → Bool
  | a :: b :: t => !(a = ' ' && b = ' ') && noDoubleSpace (b :: t)
  | _ => true

/-- Normal form left by fixText: no newline anywhere, no whitespace at
either end, and no two adjacent spaces. -/
def NormText (l : List Char) : Prop :=
  ('\n' ∉ l) ∧ (∀ c, l.head? = some c → pyIsSpace c = false) ∧
  (∀ c, l.getLast? = some c → pyIsSpace c = false) ∧
  noDoubleSpace l = true

/-! ## Theorems for the claims -/

/-- C1: the claim states that an embedded bonus entry whose id has no
matching popup record makes extraction fail with DataError, the presence
check being on the popup-lookup result.  The source instead tests the
bonus entry itself (always truthy), so the failed lookup surfaces as the
AttributeError raised by dereferencing None, and the DataError branch is
unreachable for any input: the code contradicts the documented intent. -/
theorem popup_lookup_failure_attribute_error :
    getCalendarBonuses [entryEx] [] = .error .attributeError ∧
    ∀ (bd : List BonusEntry) (pd : List PopupRecord),
      getCalendarBonuses bd pd ≠
        .error (.dataError "Could not fidn a matching bonus popup.") := by
  refine ⟨rfl, ?_⟩
  intro bd pd
  induction bd with
  | nil => intro h; exact Except.noConfusion h
  | cons e rest ih =>
    intro h
    simp only [getCalendarBonuses, BonusEntry.truthy] at h
    cases hf : List.find? (fun x => x.id == e.id) pd with
    | none => simp [hf] at h
    | some bp =>
      cases hr : getCalendarBonuses rest pd with
      | error e2 =>
        simp [hf, hr] at h
        exact ih (by rw [hr, h])
      | ok bs2 => simp [hf, hr] at h

/-- C2: the claim states that every Calendar produced by extraction has
min/max-derived bounds.  The source never produces a Calendar: the
Calendar() construction at src/sazka.py line 161 has seven required fields
with no defaults and raises pydantic ValidationError before lines 162-169
run, for every input, so the claim describes behavior the code cannot
exhibit even though the spec plainly intends get_calendars to return
Calendars.  The first conjunct evaluates the failing input (the
single-bonus scenario page), the second shows the failure is unconditional,
and the third records that the unreachable bounds assignments of lines
167-168, embedded as getCalendarFields, would moreover take the first
start and the last end rather than the extrema, refuting the min/max
reading on a descending-order bonus list. -/
theorem calendar_construction_always_fails :
    getCalendar [] "" "" "u" [entryEx] [popupEx] = .error .validationError ∧
    (∀ (hdr : List String) (sub txt url : String) (bd : List BonusEntry)
       (pd : List PopupRecord),
       getCalendar hdr sub txt url bd pd = .error .validationError) ∧
    (getCalendarFields [] "" "" "u2" bdCex pdCex).map calendarMinMaxBool =
      Except.ok false :=
  ⟨rfl, fun _ _ _ _ _ _ => rfl, by rfl⟩

/-- C3: the payload posted by send_message carries the client token and
user key in its token and user fields, regardless of the values the caller
had set on the Message. -/
theorem send_payload_uses_client_credentials :
    ∀ (apiToken userKey : String) (m : Message),
      (sendPayload apiToken userKey m).token = some apiToken ∧
      (sendPayload apiToken userKey m).user = some userKey :=
  fun _ _ _ => ⟨rfl, rfl⟩

/-- C4: the claim states that a transport failure of the login raises
ConnectionError chaining the transport exception.  In the source the
except branch reads e.response.status_code unconditionally; a transport
failure carries no response, so the attribute access on None raises
AttributeError before the ConnectionError raise is reached.  The HTTP 4xx
half of the claim does hold (AuthError with the response body), and a 5xx
response is what actually reaches the ConnectionError raise. -/
theorem login_transport_failure_attribute_error :
    loginHandle .transportError = .error .attributeError ∧
    loginHandle (.httpError 403 "Invalid credentials") =
      .error (.authError "Invalid credentials") ∧
    loginHandle (.httpError 500 "server error") = .error .connectionError :=
  ⟨rfl, rfl, rfl⟩

/-- C5 counterexample: for the provider error list with the single entry
user IDENTIFIER is invalid, the code produces the str.capitalize image
User identifier is invalid, while the claim (first letter capitalized, the
rest unchanged) predicts User IDENTIFIER is invalid; the two differ. -/
theorem validate_capitalize_lowercases_rest :
    validateSecrets tok30 tok30 (.ok 200 ⟨some 0, ["user IDENTIFIER is invalid"]⟩) =
      .error (.authError "User identifier is invalid") ∧
    pyCapitalize "user IDENTIFIER is invalid" ≠
      capitalizeFirstLetterSpec "user IDENTIFIER is invalid" ∧
    capitalizeFirstLetterSpec "user IDENTIFIER is invalid" =
      "User IDENTIFIER is invalid" :=
  ⟨rfl, by decide, rfl⟩

/-- C5 amended: a validation response whose body has status flag 0 makes
construction fail with AuthError whose message is the first reported error
message passed through Python str.capitalize, which uppercases the first
character and lowercases the rest. -/
theorem validate_status_zero_auth_error :
    ∀ (apiToken userKey : String) (st : Nat) (body : RespBody),
      apiToken.length = 30 → userKey.length = 30 → body.status.getD 0 = 0 →
      validateSecrets apiToken userKey (.ok st body) =
        .error (.authError
          (pyCapitalize (body.errors.headD "Failed to get the error message"))) := by
  intro t u st body h1 h2 h3
  simp [validateSecrets, h1, h2, validateSecretsHandle, validateResponse, h3]

/-- C5 witness: the spec scenario, on which str.capitalize and the claim
reading agree. -/
theorem validate_status_zero_auth_error_witness :
    validateSecrets tok30 tok30 (.ok 200 ⟨some 0, ["user identifier is invalid"]⟩) =
      .error (.authError "User identifier is invalid") :=
  validate_status_zero_auth_error tok30 tok30 200
    ⟨some 0, ["user identifier is invalid"]⟩ rfl rfl rfl

/-- C6: every Bonus built by extraction has start_datetime equal to its
end_datetime with the time of day replaced by hour 12, minute 0, second 0,
microsecond 0. -/
theorem bonus_start_is_noon_of_end :
    ∀ (bd : List BonusEntry) (pd : List PopupRecord) (bs : List CalendarBonus),
      getCalendarBonuses bd pd = .ok bs →
      ∀ b ∈ bs, b.start_datetime = Datetime.replace b.end_datetime 12 0 0 0 := by
  intro bd pd
  induction bd with
  | nil =>
    intro bs h b hb
    simp only [getCalendarBonuses, Except.ok.injEq] at h
    subst h
    exact absurd hb (List.not_mem_nil b)
  | cons e rest ih =>
    intro bs h b hb
    simp only [getCalendarBonuses, BonusEntry.truthy] at h
    cases hf : List.find? (fun x => x.id == e.id) pd with
    | none => simp [hf] at h
    | some bp =>
      cases hr : getCalendarBonuses rest pd with
      | error e2 => simp [hf, hr] at h
      | ok bs2 =>
        rw [if_neg (by decide)] at h
        simp only [hf, hr, Except.ok.injEq] at h
        subst h
        rcases List.mem_cons.mp hb with h1 | h2
        · subst h1; rfl
        · exact ih bs2 hr b h2

/-- C6 witness: the scenario bonus built from entryEx and popupEx. -/
theorem bonus_start_is_noon_of_end_witness :
    bonusEx.start_datetime = Datetime.replace bonusEx.end_datetime 12 0 0 0 :=
  bonus_start_is_noon_of_end [entryEx] [popupEx] [bonusEx] rfl bonusEx
    (List.mem_singleton.mpr rfl)

/-- C7: a Message with both the html and the monospace flag true never
validates, whatever the other fields hold: either a field constraint
already fails, or the check_html_and_monospace model validator rejects
the combination. -/
theorem message_html_and_monospace_rejected :
    ∀ (m : Message), m.html = true → m.monospace = true →
      isOkB (validateMessage m) = false := by
  intro m h1 h2
  by_cases hf : fieldChecksOk m = false <;>
    simp [validateMessage, hf, h1, h2, isOkB]

/-- C7 witness: the all-default message with both flags set. -/
theorem message_html_and_monospace_rejected_witness :
    isOkB (validateMessage msgBoth) = false :=
  message_html_and_monospace_rejected msgBoth rfl rfl

/-- C8: on a successful send the result is extracted from the three
rate-limit headers: the quotas are the parsed header numbers, reset is the
header timestamp through datetime.fromtimestamp, every component defaults
to 0 when its header is absent, and no error is raised for a low or zero
remaining quota; the spec scenario headers 7500, 7499 and 1700000000 give
exactly Limits 7500, 7499 and 2023-11-14 22:13:20. -/
theorem send_limits_from_headers :
    (∀ (apiToken userKey : String) (m : Message) (status : Nat)
       (body : RespBody) (headers : LimitHeaders),
       status < 400 → validateResponse body = none →
       (sendMessageHandle apiToken userKey m (.ok status body headers)).snd =
         extractLimits headers) ∧
    (∀ (hl hr ht : String) (l r t : Int),
       pyStrToInt? hl = some l → pyStrToInt? hr = some r →
       pyStrToInt? ht = some t →
       extractLimits ⟨some hl, some hr, some ht⟩ =
         .ok ⟨l, r, Datetime.fromTimestamp t⟩) ∧
    extractLimits ⟨some "7500", some "7499", some "1700000000"⟩ =
      .ok ⟨7500, 7499, ⟨2023, 11, 14, 22, 13, 20, 0⟩⟩ ∧
    extractLimits ⟨some "7500", some "0", some "0"⟩ =
      .ok ⟨7500, 0, ⟨1970, 1, 1, 0, 0, 0, 0⟩⟩ ∧
    extractLimits ⟨none, none, none⟩ =
      .ok ⟨0, 0, ⟨1970, 1, 1, 0, 0, 0, 0⟩⟩ := by
  refine ⟨?_, ?_, rfl, rfl, rfl⟩
  · intro t u m st body hd hst hv
    simp [sendMessageHandle, hv, Nat.not_le.mpr hst]
  · intro hl hr ht l r t h1 h2 h3
    simp [extractLimits, headerInt?, h1, h2, h3]

/-- C8 witness: a successful send with the scenario headers returns the
scenario limits. -/
theorem send_limits_from_headers_witness :
    (sendMessageHandle tok30 tok30 msgBoth
        (.ok 200 ⟨some 1, []⟩ ⟨some "7500", some "7499", some "1700000000"⟩)).snd =
      .ok ⟨7500, 7499, ⟨2023, 11, 14, 22, 13, 20, 0⟩⟩ := by
  have h := send_limits_from_headers.1 tok30 tok30 msgBoth 200 ⟨some 1, []⟩
    ⟨some "7500", some "7499", some "1700000000"⟩ (by decide) (by decide)
  exact h.trans send_limits_from_headers.2.2.1

/-- C10: send_message mutates the caller Message before posting: the
message as it stands after the call has the client credentials in token
and user and every other field unchanged. -/
theorem send_message_mutates_only_credentials :
    ∀ (apiToken userKey : String) (m : Message) (outcome : SendOutcome),
      (sendMessageHandle apiToken userKey m outcome).fst =
        { m with token := some apiToken, user := some userKey } ∧
      (sendMessageHandle apiToken userKey m outcome).fst.token = some apiToken ∧
      (sendMessageHandle apiToken userKey m outcome).fst.user = some userKey ∧
      (sendMessageHandle apiToken userKey m outcome).fst.message = m.message ∧
      (sendMessageHandle apiToken userKey m outcome).fst.attachment = m.attachment ∧
      (sendMessageHandle apiToken userKey m outcome).fst.attachment_base64 =
        m.attachment_base64 ∧
      (sendMessageHandle apiToken userKey m outcome).fst.attachment_type =
        m.attachment_type ∧
      (sendMessageHandle apiToken userKey m outcome).fst.device = m.device ∧
      (sendMessageHandle apiToken userKey m outcome).fst.html = m.html ∧
      (sendMessageHandle apiToken userKey m outcome).fst.monospace = m.monospace ∧
      (sendMessageHandle apiToken userKey m outcome).fst.priority = m.priority ∧
      (sendMessageHandle apiToken userKey m outcome).fst.sound = m.sound ∧
      (sendMessageHandle apiToken userKey m outcome).fst.timestamp = m.timestamp ∧
      (sendMessageHandle apiToken userKey m outcome).fst.title = m.title ∧
      (sendMessageHandle apiToken userKey m outcome).fst.ttl = m.ttl ∧
      (sendMessageHandle apiToken userKey m outcome).fst.url = m.url ∧
      (sendMessageHandle apiToken userKey m outcome).fst.url_title = m.url_title :=
  fun _ _ _ _ =>
    ⟨rfl, rfl, rfl, rfl, rfl, rfl, rfl, rfl, rfl, rfl, rfl, rfl, rfl, rfl,
     rfl, rfl, rfl⟩

/-! ## Lemmas for the idempotence of fixText -/

/-- Unfolding equation of the collapser at a non-space head. -/
theorem collapseSpacesAux_cons_of_ne (b : Bool) (x : Char) (r : List Char)
    (hx : x ≠ ' ') :
    collapseSpacesAux b (x :: r) = x :: collapseSpacesAux false r := by
  simp only [collapseSpacesAux, if_neg hx]

/-- Unfolding equation of the collapser at a space inside a run. -/
theorem collapseSpacesAux_cons_space_true (r : List Char) :
    collapseSpacesAux true (' ' :: r) = collapseSpacesAux true r := rfl

/-- Unfolding equation of the collapser at a space opening a run. -/
theorem collapseSpacesAux_cons_space_false (r : List Char) :
    collapseSpacesAux false (' ' :: r) = ' ' :: collapseSpacesAux true r := rfl

/-- Every character emitted by the space collapser occurs in its input. -/
theorem mem_collapseSpacesAux :
    ∀ (b : Bool) (l : List Char) (c : Char), c ∈ collapseSpacesAux b l → c ∈ l := by
  intro b l
  induction l generalizing b with
  | nil => intro c h; simp [collapseSpacesAux] at h
  | cons a t ih =>
    intro c h
    by_cases ha : a = ' '
    · subst ha
      cases b with
      | true =>
        have h2 : c ∈ collapseSpacesAux true t := h
        exact List.mem_cons_of_mem _ (ih true c h2)
      | false =>
        have h2 : c ∈ ' ' :: collapseSpacesAux true t := h
        rcases List.mem_cons.mp h2 with h3 | h3
        · subst h3; exact List.mem_cons_self _ _
        · exact List.mem_cons_of_mem _ (ih true c h3)
    · simp only [collapseSpacesAux, if_neg ha] at h
      rcases List.mem_cons.mp h with h3 | h3
      · subst h3; exact List.mem_cons_self _ _
      · exact List.mem_cons_of_mem _ (ih false c h3)

/-- The head surviving a dropWhile does not satisfy the predicate. -/
theorem head?_dropWhile_not (p : Char → Bool) :
    ∀ (l : List Char) (c : Char), (l.dropWhile p).head? = some c → p c = false := by
  intro l
  induction l with
  | nil => intro c h; simp [List.dropWhile] at h
  | cons a t ih =>
    intro c h
    rw [List.dropWhile_cons] at h
    by_cases hp : p a
    · rw [if_pos hp] at h; exact ih c h
    · rw [if_neg hp] at h
      simp only [List.head?_cons, Option.some.injEq] at h
      subst h
      simpa using hp

/-- A non-empty dropWhile keeps the last element of the list. -/
theorem getLast?_dropWhile (p : Char → Bool) :
    ∀ (l : List Char), l.dropWhile p ≠ [] →
      (l.dropWhile p).getLast? = l.getLast? := by
  intro l
  induction l with
  | nil => intro h; simp [List.dropWhile] at h
  | cons a t ih =>
    intro h
    rw [List.dropWhile_cons] at h ⊢
    by_cases hp : p a
    · rw [if_pos hp] at h ⊢
      have ht : t ≠ [] := by
        intro he; subst he; simp [List.dropWhile] at h
      rw [ih h]
      cases t with
      | nil => exact absurd rfl ht
      | cons d t2 => rw [List.getLast?_cons_cons]
    · rw [if_neg hp]

/-- The last character of a stripped list is not whitespace. -/
theorem pyStrip_getLast? :
    ∀ (l : List Char) (c : Char), (pyStrip l).getLast? = some c →
      pyIsSpace c = false := by
  intro l c h
  unfold pyStrip at h
  rw [List.getLast?_reverse] at h
  exact head?_dropWhile_not pyIsSpace _ c h

/-- The first character of a stripped list is not whitespace. -/
theorem pyStrip_head? :
    ∀ (l : List Char) (c : Char), (pyStrip l).head? = some c →
      pyIsSpace c = false := by
  intro l c h
  unfold pyStrip at h
  rw [List.head?_reverse] at h
  have hne : (l.dropWhile pyIsSpace).reverse.dropWhile pyIsSpace ≠ [] := by
    intro he; rw [he] at h; simp at h
  rw [getLast?_dropWhile pyIsSpace _ hne, List.getLast?_reverse] at h
  exact head?_dropWhile_not pyIsSpace _ c h

/-- dropWhile is the identity when the head does not satisfy the
predicate. -/
theorem dropWhile_eq_self_of_head (p : Char → Bool) :
    ∀ (l : List Char), (∀ c, l.head? = some c → p c = false) →
      l.dropWhile p = l := by
  intro l h
  cases l with
  | nil => rfl
  | cons a t => rw [List.dropWhile_cons, if_neg (by simp [h a rfl])]

/-- Stripping is the identity on lists with no whitespace at either
end. -/
theorem pyStrip_eq_self :
    ∀ (l : List Char), (∀ c, l.head? = some c → pyIsSpace c = false) →
      (∀ c, l.getLast? = some c → pyIsSpace c = false) → pyStrip l = l := by
  intro l h1 h2
  unfold pyStrip
  rw [dropWhile_eq_self_of_head pyIsSpace l h1]
  rw [dropWhile_eq_self_of_head pyIsSpace l.reverse
    (fun c hc => h2 c (by rwa [List.head?_reverse] at hc))]
  exact List.reverse_reverse l

/-- The collapser started outside a run keeps the head of its input. -/
theorem head?_collapseSpacesAux_false :
    ∀ (l : List Char), (collapseSpacesAux false l).head? = l.head? := by
  intro l
  cases l with
  | nil => rfl
  | cons a t =>
    by_cases ha : a = ' '
    · subst ha; rfl
    · simp only [collapseSpacesAux, if_neg ha, List.head?_cons]

/-- The collapser started inside a run never emits a space first. -/
theorem head?_collapseSpacesAux_true :
    ∀ (l : List Char) (c : Char),
      (collapseSpacesAux true l).head? = some c → c ≠ ' ' := by
  intro l
  induction l with
  | nil => intro c h; simp [collapseSpacesAux] at h
  | cons a t ih =>
    intro c h
    by_cases ha : a = ' '
    · subst ha; exact ih c h
    · simp only [collapseSpacesAux, if_neg ha, List.head?_cons,
        Option.some.injEq] at h
      subst h
      exact ha

/-- The collapser keeps a non-space last element. -/
theorem getLast?_collapseSpacesAux :
    ∀ (l : List Char) (b : Bool) (c : Char), c ≠ ' ' → l.getLast? = some c →
      (collapseSpacesAux b l).getLast? = some c := by
  intro l
  induction l with
  | nil => intro b c _ h; simp at h
  | cons a t ih =>
    intro b c hc h
    cases t with
    | nil =>
      simp only [List.getLast?_singleton, Option.some.injEq] at h
      subst h
      cases b <;> simp [collapseSpacesAux, hc]
    | cons d t2 =>
      rw [List.getLast?_cons_cons] at h
      have hL : ∀ b2, (collapseSpacesAux b2 (d :: t2)).getLast? = some c :=
        fun b2 => ih b2 c hc h
      have hne : ∀ b2, collapseSpacesAux b2 (d :: t2) ≠ [] := by
        intro b2 he
        have h3 := hL b2
        rw [he] at h3
        simp at h3
      by_cases ha : a = ' '
      · subst ha
        cases b with
        | true => exact hL true
        | false =>
          show (' ' :: collapseSpacesAux true (d :: t2)).getLast? = some c
          cases hcc : collapseSpacesAux true (d :: t2) with
          | nil => exact absurd hcc (hne true)
          | cons e l2 => rw [List.getLast?_cons_cons, ← hcc]; exact hL true
      · rw [collapseSpacesAux_cons_of_ne b a (d :: t2) ha]
        cases hcc : collapseSpacesAux false (d :: t2) with
        | nil => exact absurd hcc (hne false)
        | cons e l2 => rw [List.getLast?_cons_cons, ← hcc]; exact hL false

/-- Extending a no-double-space list with a character that does not create
an adjacent pair of spaces. -/
theorem noDoubleSpace_cons :
    ∀ (a : Char) (l : List Char), noDoubleSpace l = true →
      (a = ' ' → l.head? ≠ some ' ') → noDoubleSpace (a :: l) = true := by
  intro a l h1 h2
  cases l with
  | nil => rfl
  | cons d t =>
    simp only [noDoubleSpace, h1, Bool.and_true, Bool.not_eq_true']
    by_cases ha : a = ' '
    · have hd : d ≠ ' ' := by
        intro he
        exact (h2 ha) (by rw [List.head?_cons, he])
      simp [ha, hd]
    · simp [ha]

/-- The collapser output never has two adjacent spaces. -/
theorem noDoubleSpace_collapseSpacesAux :
    ∀ (l : List Char) (b : Bool),
      noDoubleSpace (collapseSpacesAux b l) = true := by
  intro l
  induction l with
  | nil => intro b; rfl
  | cons a t ih =>
    intro b
    by_cases ha : a = ' '
    · subst ha
      cases b with
      | true => exact ih true
      | false =>
        refine noDoubleSpace_cons ' ' _ (ih true) ?_
        intro _ hh
        exact head?_collapseSpacesAux_true t ' ' hh rfl
    · simp only [collapseSpacesAux, if_neg ha]
      exact noDoubleSpace_cons a _ (ih false) (fun he => absurd he ha)

/-- The collapser is the identity on lists with no two adjacent spaces;
the flag variant additionally needs a non-space head. -/
theorem collapseSpacesAux_eq_self :
    ∀ (l : List Char), noDoubleSpace l = true →
      collapseSpacesAux false l = l ∧
      (l.head? ≠ some ' ' → collapseSpacesAux true l = l) := by
  intro l
  induction l with
  | nil => intro _; exact ⟨rfl, fun _ => rfl⟩
  | cons a t ih =>
    intro hnd
    have hndt : noDoubleSpace t = true := by
      cases t with
      | nil => rfl
      | cons d t2 =>
        simp [noDoubleSpace] at hnd
        exact hnd.2
    obtain ⟨ih1, ih2⟩ := ih hndt
    by_cases ha : a = ' '
    · subst ha
      have hth : t.head? ≠ some ' ' := by
        cases t with
        | nil => simp
        | cons d t2 =>
          simp [noDoubleSpace] at hnd
          intro hh
          simp only [List.head?_cons, Option.some.injEq] at hh
          exact hnd.1 hh
      refine ⟨?_, ?_⟩
      · show ' ' :: collapseSpacesAux true t = ' ' :: t
        rw [ih2 hth]
      · intro hh; exact absurd rfl hh
    · refine ⟨?_, ?_⟩
      · simp only [collapseSpacesAux, if_neg ha]
        rw [ih1]
      · intro _
        simp only [collapseSpacesAux, if_neg ha]
        rw [ih1]

/-- Replacing newlines introduces no newline. -/
theorem not_mem_replaceNewlines : ∀ (l : List Char), '\n' ∉ replaceNewlines l := by
  intro l h
  rcases List.mem_map.mp h with ⟨c, _, he⟩
  by_cases h2 : c = '\n'
  · rw [if_pos h2] at he; exact absurd he (by decide)
  · rw [if_neg h2] at he; exact h2 he

/-- Replacing newlines is the identity when there is none. -/
theorem replaceNewlines_eq_self :
    ∀ (l : List Char), '\n' ∉ l → replaceNewlines l = l := by
  intro l
  induction l with
  | nil => intro _; rfl
  | cons a t ih =>
    intro h
    have ha : a ≠ '\n' := by
      intro he
      exact h (by rw [← he]; exact List.mem_cons_self a t)
    simp only [replaceNewlines, List.map_cons, if_neg ha]
    have h2 := ih (fun hm => h (List.mem_cons_of_mem a hm))
    simp only [replaceNewlines] at h2
    rw [h2]

/-- Stripping keeps only characters of the input. -/
theorem mem_pyStrip : ∀ (l : List Char) (c : Char), c ∈ pyStrip l → c ∈ l := by
  intro l c h
  unfold pyStrip at h
  rw [List.mem_reverse] at h
  have h2 : c ∈ (l.dropWhile pyIsSpace).reverse :=
    (List.dropWhile_sublist pyIsSpace).subset h
  rw [List.mem_reverse] at h2
  exact (List.dropWhile_sublist pyIsSpace).subset h2

/-- The output of fixText is in normal form. -/
theorem fixText_norm : ∀ (l : List Char), NormText (fixText l) := by
  intro l
  refine ⟨?_, ?_, ?_, ?_⟩
  · intro h
    have h1 : '\n' ∈ pyStrip (replaceNewlines l) :=
      mem_collapseSpacesAux false _ '\n' h
    exact not_mem_replaceNewlines l (mem_pyStrip _ '\n' h1)
  · intro c h
    unfold fixText collapseSpaces at h
    rw [head?_collapseSpacesAux_false] at h
    exact pyStrip_head? _ c h
  · intro c h
    unfold fixText collapseSpaces at h
    cases hX : (pyStrip (replaceNewlines l)).getLast? with
    | none =>
      have h2 : pyStrip (replaceNewlines l) = [] :=
        List.getLast?_eq_none_iff.mp hX
      rw [h2] at h
      simp [collapseSpacesAux] at h
    | some c0 =>
      have hc0 : pyIsSpace c0 = false := pyStrip_getLast? _ c0 hX
      have hc0ne : c0 ≠ ' ' := by
        intro he; rw [he] at hc0; simp [pyIsSpace] at hc0
      rw [getLast?_collapseSpacesAux _ false c0 hc0ne hX] at h
      cases Option.some.inj h
      exact hc0
  · exact noDoubleSpace_collapseSpacesAux _ false

/-- fixText is the identity on normal forms. -/
theorem fixText_eq_self : ∀ (l : List Char), NormText l → fixText l = l := by
  intro l h
  obtain ⟨h1, h2, h3, h4⟩ := h
  unfold fixText
  rw [replaceNewlines_eq_self l h1, pyStrip_eq_self l h2 h3]
  exact (collapseSpacesAux_eq_self l h4).1

/-- C9: the free-text normalization is idempotent: applying _fix_text to
an already-normalized string returns it unchanged. -/
theorem fix_text_idempotent : ∀ (s : String), fixTextS (fixTextS s) = fixTextS s := by
  intro s
  show String.mk (fixText (String.mk (fixText s.data)).data) = String.mk (fixText s.data)
  exact congrArg String.mk (fixText_eq_self (fixText s.data) (fixText_norm s.data))
